import Mathlib

/-!
Shallow embedding of the moderation-event pipeline of the `atproto-hma`
bridge (Flask service in `src/main.py`, persistence in `src/db/session.py`
and `src/db/models.py`, signature verification in
`src/api/v1/endpoints/webhook.py`, image preprocessing in
`src/utils/image_utils.py`, HMA client in `src/services/hma_client.py`).

Conventions:
* Python `None`-able strings are `Option String`; a missing dict key is
  `none`.
* Timestamps (`datetime.datetime.utcnow()`) are a `Nat` clock value passed
  in explicitly.
* The database table `moderation_logs` is a `List ModerationLog`,
  `INSERT` is append at the end; SQL `ORDER BY created_at DESC` is an
  executable sort (tie order among equal timestamps is unspecified in SQL;
  we fix one).
* Outbound HTTP calls are represented by their observed outcome, passed in
  as a parameter (`Option` response, `none` = the `requests` call raised).
-/

/-- Python truthiness of an optional string: `None` and `""` are falsy. -/
def pyTruthy : Option String → Bool
  | none => false
  | some s => decide (s ≠ "")

/-- A row of the `moderation_logs` table as mapped by the ORM model
`ModerationLog` in `src/db/models.py`.  The declared columns are `id`,
`photo_id`, `author_did`, `match_result`, `match_type`, `match_score`,
`action_taken`, `hma_response`, `created_at`, `processed_at`.  There is NO
mapped `altitude_task_id` column (the migration in `src/db/migrate.py` adds
one to the SQL table, but the ORM model never maps it and `main.py` never
runs the migration).  `src/db/session.py:update_altitude_task` nevertheless
assigns `log.altitude_task_id`, which in Python creates a plain, unmapped
instance attribute.  The field `altitude_task_id` below models that
attribute: `none` means the attribute was never set, so that reading
`log.altitude_task_id` raises `AttributeError`. -/
structure ModerationLog where
  id : Nat
  photo_id : String
  author_did : String
  match_result : Bool
  match_type : Option String
  match_score : Option Int
  action_taken : Option String
  hma_response : Option String
  created_at : Nat
  processed_at : Option Nat := none
  altitude_task_id : Option String := none
deriving Repr, DecidableEq

/-- `src/db/session.py:log_moderation_event` (lines 32-66): constructs a new
`ModerationLog` row and commits it — this function always INSERTS a fresh
row, it never updates an existing one.  Its parameter list is
`(photo_id, author_did, match_result, match_type=None, match_score=None,
action_taken=None, hma_response=None)`; it does NOT accept
`altitude_task_id` or `altitude_task_status` keyword arguments.  The `id`
column is an autoincrement surrogate.  Returns the updated store (the new
row is the last element). -/
def log_moderation_event (photo_id author_did : String) (match_result : Bool)
    (match_type : Option String) (match_score : Option Int)
    (action_taken : Option String) (hma_response : Option String)
    (now : Nat) (db : List ModerationLog) : List ModerationLog :=
  db ++ [{ id := db.length + 1
           photo_id := photo_id
           author_did := author_did
           match_result := match_result
           match_type := match_type
           match_score := match_score
           action_taken := action_taken
           hma_response := hma_response
           created_at := now }]

/-- Insert into a list kept sorted by `created_at` in descending order. -/
def insertByCreatedAtDesc (l : ModerationLog) : List ModerationLog → List ModerationLog
  | [] => [l]
  | x :: xs =>
    if l.created_at ≤ x.created_at then x :: insertByCreatedAtDesc l xs
    else l :: x :: xs

/-- SQL `ORDER BY created_at DESC` as an executable sort. -/
def sortByCreatedAtDesc : List ModerationLog → List ModerationLog
  | [] => []
  | x :: xs => insertByCreatedAtDesc x (sortByCreatedAtDesc xs)

/-- `src/db/session.py:get_moderation_logs_for_photo` (lines 87-103):
`SELECT * FROM moderation_logs WHERE photo_id = :photo_id
ORDER BY created_at DESC`. -/
def get_moderation_logs_for_photo (photo_id : String) (db : List ModerationLog) :
    List ModerationLog :=
  sortByCreatedAtDesc (db.filter fun l => decide (l.photo_id = photo_id))

/-- `src/db/session.py:update_altitude_task` (lines 105-128).  Its signature
is `update_altitude_task(photo_id, task_id)` — two parameters only.  It
fetches the latest row for `photo_id` and executes
`log.altitude_task_id = task_id; db.commit(); db.refresh(log)`.
Because `altitude_task_id` is not a mapped column of the ORM model
(`src/db/models.py` declares no such `Column`), the assignment creates a
plain in-memory attribute on the fetched instance and `commit()` persists
nothing for it: the durable table is returned unchanged, and only the
returned instance carries the value. -/
def update_altitude_task (photo_id : String) (task_id : String)
    (db : List ModerationLog) : Option ModerationLog × List ModerationLog :=
  match (get_moderation_logs_for_photo photo_id db).head? with
  | none => (none, db)
  | some log => (some { log with altitude_task_id := some task_id }, db)

/-! ## Signature verification (`src/api/v1/endpoints/webhook.py`, lines 18-53) -/

/-- `verify_webhook_signature`: pure decision logic of the FastAPI
dependency.  `hmacHex key body` stands for
`hmac.new(key.encode(), body, hashlib.sha256).hexdigest()`; the code
compares it to the `X-HMA-Signature` header with `hmac.compare_digest`
(semantically string equality).  `.ok true` models returning `True`;
`.error 401` models raising `HTTPException(status_code=401)`. -/
def verify_webhook_signature (hmacHex : String → List Nat → String)
    (hma_api_key : Option String) (x_hma_signature : Option String)
    (body : List Nat) : Except Nat Bool :=
  if pyTruthy hma_api_key = false then
    -- `if not settings.HMA_API_KEY: return True` (open mode)
    .ok true
  else if pyTruthy x_hma_signature = false then
    .error 401
  else
    let expected := hmacHex (hma_api_key.getD "") body
    if expected = x_hma_signature.getD "" then .ok true
    else .error 401

/-! ## Image preprocessing (`src/utils/image_utils.py`, lines 10-52) -/

/-- In-memory image as far as `process_image` observes it. -/
structure PILImage where
  mode : String
  width : Nat
  height : Nat
deriving Repr, DecidableEq

/-- `process_image(image_data)`: the whole body is wrapped in
`try ... except Exception: return image_data`.  `decode` stands for
`PIL.Image.open` (`none` = raises, e.g. undecodable bytes), `save` for
`img.save(output, format="JPEG", quality=95)` followed by `getvalue()`
(`none` = raises).  The resize arithmetic
`int(img.height * (max_size / img.width))` is embedded as natural floor
division. -/
def process_image (decode : List Nat → Option PILImage)
    (save : PILImage → Option (List Nat))
    (image_data : List Nat) : List Nat :=
  match decode image_data with
  | none => image_data
  | some img0 =>
    let img1 := if img0.mode ≠ "RGB" then { img0 with mode := "RGB" } else img0
    let img2 :=
      if max img1.width img1.height > 1000 then
        if img1.width > img1.height then
          { img1 with width := 1000, height := img1.height * 1000 / img1.width }
        else
          { img1 with height := 1000, width := img1.width * 1000 / img1.height }
      else img1
    match save img2 with
    | none => image_data
    | some out => out

/-! ## Altitude decision callback (`src/main.py:altitude_webhook`, lines 781-847) -/

/-- Outcome of `json.loads(data['client_context'])` followed by
`client_context.get('photo_id')` / `client_context.get('author_did')`:
* `malformed` — `json.loads` raises `json.JSONDecodeError` (caught at
  `main.py:841`, answered 400);
* `nonObject` — `json.loads` succeeds but the value is not a dict
  (`null`, a list, a number, a string, ...): `client_context.get(...)`
  at `main.py:807` raises `AttributeError`, which escapes
  `except json.JSONDecodeError` to the outer handler → HTTP 500;
* `parsed` — a dict; the two `.get` results follow. -/
inductive ContextParse
  | malformed
  | nonObject
  | parsed (photo_id : Option String) (author_did : Option String)
deriving Repr, DecidableEq

/-- The JSON value stored under the `client_context` key:
* `jstring s` — a JSON string, handed to `json.loads`;
* `nonString` — any other JSON value (null, number, list, object):
  `json.loads` at `main.py:806` raises `TypeError`, which escapes
  `except json.JSONDecodeError` to the outer handler → HTTP 500. -/
inductive ClientContextValue
  | jstring (s : String)
  | nonString
deriving Repr, DecidableEq

/-- The JSON body expected by `/api/v1/altitude/webhook`
(`main.py` lines 793-798): `client_context`, `decision`
(`"APPROVE"` or `"BLOCK"`) and `decision_time`.  A field is `none` when the
key is absent.  `decision` is only ever compared with `== "APPROVE"`
(`main.py:815`), which raises for no JSON value, so its non-string values
need no separate representative; `decision_time` is documented in the
expected format but never read by the handler. -/
structure AltitudeWebhookData where
  client_context : Option ClientContextValue
  decision : Option String
  decision_time : Option String
deriving Repr, DecidableEq

/-- `altitude_webhook` (`src/main.py` lines 781-847): returns the HTTP
status together with the resulting durable store.  `parseCtx` stands for
`json.loads` of the `client_context` string plus the two `.get` calls.

The branch where a moderation log is found embeds the following facts:
`main.py:827` evaluates `log.altitude_task_id`, which raises
`AttributeError` whenever the attribute was never set (the ORM model in
`src/db/models.py` maps no `altitude_task_id` column, so rows fetched from
the database never have it); if the attribute were present, `main.py:825`
calls `update_altitude_task(photo_id=..., altitude_task_id=...,
altitude_task_status=...)`, while `src/db/session.py:105` defines
`update_altitude_task(photo_id, task_id)` — the keyword arguments do not
match the signature, so the call raises `TypeError`.  Either exception
propagates past `except json.JSONDecodeError` (`main.py:841`) to the outer
`except Exception` (`main.py:845`): HTTP 500, and no write reaches the
database. -/
def altitude_webhook (parseCtx : String → ContextParse)
    (data : Option AltitudeWebhookData) (db : List ModerationLog) :
    Nat × List ModerationLog :=
  match data with
  | none => (400, db)  -- `if not data ...: return 400`
  | some d =>
    match d.client_context, d.decision with
    | none, _ => (400, db)  -- `'client_context' not in data`
    | _, none => (400, db)  -- `'decision' not in data`
    | some ctxv, some dec =>
      match ctxv with
      | .nonString =>
        -- `json.loads` on a non-string raises `TypeError` (main.py:806),
        -- not caught by `except json.JSONDecodeError` → outer handler → 500
        (500, db)
      | .jstring ctx =>
      match parseCtx ctx with
      | .malformed => (400, db)  -- `except json.JSONDecodeError: return 400`
      | .nonObject =>
        -- valid JSON but not a dict: `.get` raises `AttributeError`
        -- (main.py:807) → outer handler → 500
        (500, db)
      | .parsed pid did =>
        if pyTruthy pid = false ∨ pyTruthy did = false then
          (400, db)  -- `if not photo_id or not author_did: return 400`
        else
          let photo_id := pid.getD ""
          -- `action_taken = "approve" if data['decision'] == "APPROVE" else "block"`
          -- (computed at main.py:815 but only ever passed to the failing call)
          let _action_taken : String := if dec = "APPROVE" then "approve" else "block"
          match get_moderation_logs_for_photo photo_id db with
          | [] => (404, db)  -- `if logs: ... else: return 404`
          | _log :: _ =>
            -- AttributeError / TypeError as described in the docstring:
            -- outer except → `jsonify({"error": str(e)}), 500`, no commit.
            (500, db)

/-! ## Match pipeline (`src/main.py:match_hash`, lines 253-465) -/

/-- A single match object inside the engine's `pdq` payload, as far as the
code reads it (`match.get("content_id")`, `match.get("bank_name", ...)`,
`match.get("distance")`/`match.get("distance", 0.0)`, `match.get("hash", "")`,
`match.get("metadata", {})`).  Distances are embedded as integers (PDQ
hamming distances). -/
structure EngineMatch where
  content_id : Option String
  bank_name : Option String
  distance : Option Int
  hash : Option String
deriving Repr, DecidableEq

/-- The engine's JSON response to `POST /m/lookup` as observed by
`match_hash`: HTTP status, whether the content type starts with
`application/json`, the `pdq` key (a dict bank-name → list of matches, kept
in payload iteration order), and `raw` standing for `json.dumps(result)`. -/
structure MatchEngineResp where
  status_code : Nat
  is_json : Bool
  pdq : Option (List (String × List EngineMatch))
  raw : String
deriving Repr, DecidableEq

/-- An entry of `formatted_result["matches"]` as built in `main.py`
lines 347-356. -/
structure FormattedMatch where
  bank : String
  content_id : Option String
  distance : Option Int
  hash : String
deriving Repr, DecidableEq

/-- The double loop `for bank_name, bank_matches in pdq_matches.items():
for match in bank_matches: formatted_result["matches"].append(...)`
(`main.py` lines 347-356).  No sorting or selection: payload iteration
order is preserved. -/
def flattenPdqMatches : List (String × List EngineMatch) → List FormattedMatch
  | [] => []
  | (bank, ms) :: rest =>
    ms.map (fun m => { bank := bank, content_id := m.content_id,
                       distance := m.distance, hash := m.hash.getD "" })
      ++ flattenPdqMatches rest

/-- `formatted_result["matches"]` for a given engine response: `[]` when the
parsed JSON has no `pdq` key. -/
def pdqMatchesOf (r : MatchEngineResp) : List FormattedMatch :=
  match r.pdq with
  | none => []
  | some banks => flattenPdqMatches banks

/-- Outcome of `altitude_client.create_review_task(...)` (`main.py:378`;
the `AltitudeClient` implementation is not part of the repository sources):
it returned a task dict, returned `None`, or raised. -/
inductive AltitudeOutcome
  | created (task_id : String)
  | failed
  | raised (msg : String)
deriving Repr, DecidableEq

/-- `author_did = request.form.get(...)` followed by
`if not author_did: author_did = "default_..." + uuid` —
(`main.py` lines 265-281).  `default` stands for the generated value. -/
def resolveFormField (v : Option String) (default : String) : String :=
  if pyTruthy v then v.getD "" else default

/-- The observable result of one `match_hash` request: HTTP status, the
`success` flag of the JSON body, the `matches` list of the body, the
`task_created` flag of the body's `altitude` object (`none` when the
`altitude` key is absent), and the resulting durable store. -/
structure MatchRunResult where
  status : Nat
  success : Bool
  matchesList : List FormattedMatch  -- the body's "matches" key
  altitude_task_created : Option Bool
  db : List ModerationLog
deriving Repr, DecidableEq

/-- `match_hash` (`src/main.py` lines 253-465).

Parameters stand for: presence of an `image` file in the form
(`hasImage`), the `author_did`/`photo_id` form fields, the two
uuid-generated default ids, the bytes read back from the saved upload
(`imageData`; `image_data_b64` is truthy iff they are nonempty), the
outcome of `requests.post(f"{HMA_API_URL}/m/lookup", ...)` (`none` = the
call raised, e.g. engine unreachable or timeout — re-raised at line 324 and
caught by the outer handler at line 459, which returns HTTP 500), the
outcome of `altitude_client.create_review_task`, the store and the clock.

In the escalation branches (lines 371-444):
* `.created _`: `main.py:387` calls `log_moderation_event(...,
  altitude_task_id=..., altitude_task_status=...)`, but
  `src/db/session.py:32` accepts no such keyword arguments — the call
  raises `TypeError` before inserting anything, the `except` at line 422
  catches it and inserts a plain row (line 424), and the response reports
  `task_created: False` with the error string;
* `.failed` (task is `None`): plain row inserted at line 407,
  `task_created: False`;
* `.raised`: plain row inserted at line 424, `task_created: False`.
All three branches therefore insert one additional row with no altitude
information and `action_taken=None`. -/
def match_hash (hasImage : Bool) (form_author form_photo : Option String)
    (default_author default_photo : String) (imageData : List Nat)
    (resp : Option MatchEngineResp) (altitude : AltitudeOutcome)
    (db : List ModerationLog) (now : Nat) : MatchRunResult :=
  if hasImage = false then
    -- lines 325-331: 400, "No image file provided in the request."
    { status := 400, success := false, matchesList := [],
      altitude_task_created := none, db := db }
  else
    let author_did := resolveFormField form_author default_author
    let photo_id := resolveFormField form_photo default_photo
    match resp with
    | none =>
      -- `requests.post` raised: temp file cleaned up, exception re-raised
      -- (line 324), outer handler returns 500 (lines 459-465).
      { status := 500, success := false, matchesList := [],
        altitude_task_created := none, db := db }
    | some r =>
      if r.status_code = 200 ∧ r.is_json = true then
        let ms := pdqMatchesOf r
        let found_matches := !ms.isEmpty
        if photo_id ≠ "" ∧ author_did ≠ "" then
          -- line 360-368: first insert
          let score := ms.head?.bind fun m => m.distance
          let db1 := log_moderation_event photo_id author_did found_matches
            (some "pdq") score none (some r.raw) now db
          if imageData.isEmpty then
            -- line 439-444: `altitude: {task_created: False, error: "No image data available"}`
            { status := 200, success := true, matchesList := ms,
              altitude_task_created := some false, db := db1 }
          else
            match altitude with
            | .created _ =>
              -- TypeError at line 387 → except at 422 → plain insert (line 424)
              let db2 := log_moderation_event photo_id author_did found_matches
                (some "pdq") score none (some r.raw) (now + 1) db1
              { status := 200, success := true, matchesList := ms,
                altitude_task_created := some false, db := db2 }
            | .failed =>
              -- line 407: plain insert
              let db2 := log_moderation_event photo_id author_did found_matches
                (some "pdq") score none (some r.raw) (now + 1) db1
              { status := 200, success := true, matchesList := ms,
                altitude_task_created := some false, db := db2 }
            | .raised _ =>
              -- line 424: plain insert
              let db2 := log_moderation_event photo_id author_did found_matches
                (some "pdq") score none (some r.raw) (now + 1) db1
              { status := 200, success := true, matchesList := ms,
                altitude_task_created := some false, db := db2 }
        else
          -- `if photo_id and author_did:` falsy: no logging, no altitude key
          { status := 200, success := true, matchesList := ms,
            altitude_task_created := none, db := db }
      else
        -- lines 448-458: `return jsonify(result)` — HTTP 200, success False
        { status := 200, success := false, matchesList := [],
          altitude_task_created := none, db := db }

/-! ## Hash endpoint (`src/main.py:hash_image`, lines 89-197) -/

/-- The engine's JSON response to `POST /h/hash`: here `pdq` is the hash
string itself. -/
structure HashEngineResp where
  status_code : Nat
  is_json : Bool
  pdq : Option String
deriving Repr, DecidableEq

/-- The JSON body returned by the hash endpoint: either one of the
formatted bodies built in `main.py` (with a `success` flag and an
`hma_status` tag), or the engine's JSON passed through as-is
(line 174, when a 200-JSON response has no `pdq` key). -/
inductive HashBody
  | formatted (success : Bool) (hash : Option String) (hma_status : String)
  | passthrough
deriving Repr, DecidableEq

/-- `hash_image` (`src/main.py` lines 89-197): HTTP status and body shape.
`resp = none` means the `requests.post` call (or anything else in the
`try`) raised — the handler at lines 189-197 then returns
`hma_status: "bridge_error"` with HTTP 200.  All other branches also
return HTTP 200 (`# Always return 200 to avoid breaking the application
flow`, line 187). -/
def hash_image (resp : Option HashEngineResp) : Nat × HashBody :=
  match resp with
  | none => (200, .formatted false none "bridge_error")
  | some r =>
    if r.status_code = 200 ∧ r.is_json = true then
      match r.pdq with
      | some h => (200, .formatted true (some h) "success")
      | none => (200, .passthrough)  -- `return jsonify(result)` as-is
    else
      (200, .formatted false none "error")

/-! ## HMA client (`src/services/hma_client.py:HMAClient.match_hash`, lines 85-134) -/

/-- A `MatchResult` as built by `HMAClient.match_hash`
(`src/models/match.py`). -/
structure MatchResultRec where
  bank_id : String
  bank_name : String
  distance : Int
  hash_value : String
deriving Repr, DecidableEq

/-- The result-building loop of `HMAClient.match_hash` (lines 119-130):
`for bank_id, matches in data.items(): for match in matches:
results.append(MatchResult(...))`.  Payload iteration order is preserved;
no sorting, selection or tie-breaking is performed. -/
def hmaClient_match_hash : List (String × List EngineMatch) → List MatchResultRec
  | [] => []
  | (bank_id, ms) :: rest =>
    ms.map (fun m => { bank_id := bank_id,
                       bank_name := m.bank_name.getD bank_id,
                       distance := m.distance.getD 0,
                       hash_value := m.hash.getD "" })
      ++ hmaClient_match_hash rest

/-! ## Concrete inputs used by the per-claim theorems -/

/-- `json.loads` behaviour on the one context string used for C1. -/
def c1_parse : String → ContextParse := fun s =>
  if s = "ctx-p1" then .parsed (some "p1") (some "d1") else .malformed

/-- A well-formed review-decision callback for photo `p1`. -/
def c1_data : AltitudeWebhookData :=
  { client_context := some (.jstring "ctx-p1"), decision := some "APPROVE",
    decision_time := some "2023-01-01T00:00:00Z" }

/-- A store holding one moderation log for photo `p1` (as produced by
`log_moderation_event`: no `altitude_task_id` attribute). -/
def c1_db : List ModerationLog :=
  [{ id := 1, photo_id := "p1", author_did := "d1", match_result := true,
     match_type := some "pdq", match_score := some 10, action_taken := none,
     hma_response := some "engine-json", created_at := 5 }]

/-- `json.loads` behaviour on the one context string used for C2. -/
def c2_parse : String → ContextParse := fun s =>
  if s = "ctx-p2" then .parsed (some "p2") (some "d2") else .malformed

/-- A review-decision callback for photo `p2`.  The expected payload
(`client_context`, `decision`, `decision_time`) carries NO task-identifier
field, so a delivery for a review task other than the stored one is
indistinguishable from any other delivery. -/
def c2_data : AltitudeWebhookData :=
  { client_context := some (.jstring "ctx-p2"), decision := some "BLOCK",
    decision_time := some "2023-02-02T00:00:00Z" }

/-- A store whose log for `p2` carries the correlation attribute
`task-A` — the stored key the claim says mismatching callbacks must be
checked against. -/
def c2_db : List ModerationLog :=
  [{ id := 1, photo_id := "p2", author_did := "d2", match_result := true,
     match_type := some "pdq", match_score := some 12, action_taken := none,
     hma_response := some "engine-json", created_at := 7,
     altitude_task_id := some "task-A" }]

/-- A 200 JSON engine response with one candidate match, used for C3. -/
def c3_resp : MatchEngineResp :=
  { status_code := 200, is_json := true,
    pdq := some [("SAMPLE_IMAGES",
      [{ content_id := some "c3", bank_name := none,
         distance := some 4, hash := some "h3" }])],
    raw := "engine-json-3" }

/-- Engine payload with two candidates used for C4: bank `zbank` comes
first in payload order with distance 10; bank `abank` (lexicographically
first) holds the lowest distance 3. -/
def c4_banks : List (String × List EngineMatch) :=
  [("zbank", [{ content_id := some "z1", bank_name := none,
                distance := some 10, hash := some "hz" }]),
   ("abank", [{ content_id := some "a1", bank_name := none,
                distance := some 3, hash := some "ha" }])]

/-- The C4 engine response. -/
def c4_resp : MatchEngineResp :=
  { status_code := 200, is_json := true, pdq := some c4_banks,
    raw := "engine-json-4" }

/-- A 200 JSON engine response with one candidate, used for C7. -/
def c7_resp : MatchEngineResp :=
  { status_code := 200, is_json := true,
    pdq := some [("b7", [{ content_id := some "c7", bank_name := none,
                           distance := some 6, hash := some "h7" }])],
    raw := "engine-json-7" }

/-- A non-200 engine response (service error), used for C8's witness. -/
def c8_err_resp : MatchEngineResp :=
  { status_code := 503, is_json := false, pdq := none, raw := "" }

/-- A store holding one moderation log for photo `p9`, used for C9. -/
def c9_db : List ModerationLog :=
  [{ id := 1, photo_id := "p9", author_did := "d9", match_result := true,
     match_type := some "pdq", match_score := some 2, action_taken := none,
     hma_response := some "engine-json-9", created_at := 11 }]

/-- A 200 JSON engine response with one candidate, used for C9. -/
def c9_resp : MatchEngineResp :=
  { status_code := 200, is_json := true,
    pdq := some [("b9", [{ content_id := some "c9", bank_name := none,
                           distance := some 2, hash := some "h9" }])],
    raw := "engine-json-9" }

/-- A callback whose `client_context` is the JSON string `"null"`: valid
JSON that is not an object, used for the C6 counterexample. -/
def c6_parse : String → ContextParse := fun s =>
  if s = "null" then .nonObject else .malformed

/-- A callback carrying that non-object context for C6. -/
def c6_data : AltitudeWebhookData :=
  { client_context := some (.jstring "null"), decision := some "APPROVE",
    decision_time := some "2023-03-03T00:00:00Z" }

/-! ## Premises of claim C6, as structural conditions on the callback -/

/-- The callback request is malformed in one of the ways `altitude_webhook`
answers with 400: no JSON body, missing `client_context` or `decision` key,
a `client_context` string that does not parse as JSON
(`json.JSONDecodeError`), or a parsed context whose `photo_id` or
`author_did` is missing/empty. -/
def webhookRequestMalformed (parseCtx : String → ContextParse)
    (data : Option AltitudeWebhookData) : Prop :=
  data = none ∨ ∃ d, data = some d ∧
    (d.client_context = none ∨ d.decision = none ∨
      ∃ ctx, d.client_context = some (.jstring ctx) ∧
        (parseCtx ctx = .malformed ∨
          ∃ pid did, parseCtx ctx = .parsed pid did ∧
            (pyTruthy pid = false ∨ pyTruthy did = false)))

/-- The callback is malformed in one of the ways `altitude_webhook` does
NOT check for, so that handling it raises past
`except json.JSONDecodeError`: both keys are present, and the
`client_context` value is not a string (`json.loads` raises `TypeError`,
`main.py:806`) or is a string holding valid non-object JSON
(`.get` raises `AttributeError`, `main.py:807`). -/
def webhookContextCrashes (parseCtx : String → ContextParse)
    (data : Option AltitudeWebhookData) : Prop :=
  ∃ d dec, data = some d ∧ d.decision = some dec ∧
    (d.client_context = some .nonString ∨
      ∃ ctx, d.client_context = some (.jstring ctx) ∧ parseCtx ctx = .nonObject)

/-- The callback is well-formed but its correlation context locates no
moderation log (the query `get_moderation_logs_for_photo` is empty). -/
def webhookLocatesNoEvent (parseCtx : String → ContextParse)
    (data : Option AltitudeWebhookData) (db : List ModerationLog) : Prop :=
  ∃ d ctx dec pid did, data = some d ∧ d.client_context = some (.jstring ctx) ∧
    d.decision = some dec ∧ parseCtx ctx = .parsed pid did ∧
    pyTruthy pid = true ∧ pyTruthy did = true ∧
    get_moderation_logs_for_photo (pid.getD "") db = []

/-! # Theorems -/

/-! ## Helper lemmas (shared, not tied to a single claim) -/

/-- The uuid-based fallback makes the resolved form field nonempty whenever
the default is. -/
theorem resolveFormField_ne_empty (v : Option String) (d : String) (hd : d ≠ "") :
    resolveFormField v d ≠ "" := by
  unfold resolveFormField
  cases v with
  | none => simpa [pyTruthy] using hd
  | some s =>
    by_cases hs : s = ""
    · simp [pyTruthy, hs]
      exact hd
    · simp [pyTruthy, hs]

/-- A malformed callback is answered with 400 and the store untouched. -/
theorem altitude_webhook_of_malformed (parseCtx : String → ContextParse)
    (data : Option AltitudeWebhookData) (db : List ModerationLog)
    (h : webhookRequestMalformed parseCtx data) :
    altitude_webhook parseCtx data db = (400, db) := by
  rcases h with rfl | ⟨d, rfl, h⟩
  · rfl
  · rcases h with hc | hd | ⟨ctx, hctx, h⟩
    · simp [altitude_webhook, hc]
    · cases hcc : d.client_context <;> simp [altitude_webhook, hcc, hd]
    · cases hdec : d.decision with
      | none => simp [altitude_webhook, hctx, hdec]
      | some dec =>
        rcases h with hm | ⟨pid, did, hp, hfalse⟩
        · simp [altitude_webhook, hctx, hdec, hm]
        · rcases hfalse with hf | hf <;>
            simp [altitude_webhook, hctx, hdec, hp, hf]

/-- A callback whose context handling raises (`TypeError` on a non-string
value, `AttributeError` on non-object JSON) is answered with 500, the store
untouched. -/
theorem altitude_webhook_of_crash (parseCtx : String → ContextParse)
    (data : Option AltitudeWebhookData) (db : List ModerationLog)
    (h : webhookContextCrashes parseCtx data) :
    altitude_webhook parseCtx data db = (500, db) := by
  obtain ⟨d, dec, rfl, hdec, h⟩ := h
  rcases h with hc | ⟨ctx, hc, hp⟩
  · simp [altitude_webhook, hc, hdec]
  · simp [altitude_webhook, hc, hdec, hp]

/-- A well-formed callback that locates no log is answered with 404 and the
store untouched. -/
theorem altitude_webhook_of_no_logs (parseCtx : String → ContextParse)
    (data : Option AltitudeWebhookData) (db : List ModerationLog)
    (h : webhookLocatesNoEvent parseCtx data db) :
    altitude_webhook parseCtx data db = (404, db) := by
  obtain ⟨d, ctx, dec, pid, did, rfl, hctx, hdec, hp, hpt, hdt, hlogs⟩ := h
  simp [altitude_webhook, hctx, hdec, hp, hpt, hdt, hlogs]

/-- No callback ever extends or mutates the store: every branch of
`altitude_webhook` returns `db` unchanged. -/
theorem altitude_webhook_preserves_db (parseCtx : String → ContextParse)
    (data : Option AltitudeWebhookData) (db : List ModerationLog) :
    (altitude_webhook parseCtx data db).2 = db := by
  unfold altitude_webhook
  cases data with
  | none => rfl
  | some d =>
    dsimp only
    repeat' split
    all_goals rfl

/-! ## C5 — webhook signature verification -/

/-- **C5.**  For every inbound hashing-engine callback: when a shared
secret is configured (truthy `HMA_API_KEY`), the request passes
verification exactly when the signature header is present and equals the
HMAC-SHA256 hex digest of the raw body under that secret, and every
rejection is an HTTP 401; when no secret is configured, every request
passes. -/
theorem C5_verify_webhook_signature_iff :
    ∀ (hmacHex : String → List Nat → String) (key sig : Option String)
      (body : List Nat),
      (verify_webhook_signature hmacHex key sig body = .ok true ↔
        (pyTruthy key = false ∨
          (pyTruthy sig = true ∧ sig.getD "" = hmacHex (key.getD "") body)))
      ∧ (verify_webhook_signature hmacHex key sig body = .ok true ∨
          verify_webhook_signature hmacHex key sig body = .error 401) := by
  intro f key sig body
  unfold verify_webhook_signature
  by_cases hk : pyTruthy key = false
  · simp [hk]
  · replace hk : pyTruthy key = true := by
      cases h : pyTruthy key
      · exact absurd h hk
      · rfl
    by_cases hs : pyTruthy sig = false
    · simp [hk, hs]
    · replace hs : pyTruthy sig = true := by
        cases h : pyTruthy sig
        · exact absurd h hs
        · rfl
      by_cases he : f (key.getD "") body = sig.getD ""
      · simp [hk, hs, he]
      · simp [hk, hs, he]
        exact fun h => absurd h.symm he

/-! ## C10 — image preprocessing fallback -/

/-- **C10.**  `process_image` is total, and whenever the input cannot be
decoded (`Image.open` raises) or cannot be re-encoded (`img.save` raises),
it returns the original input bytes unchanged. -/
theorem C10_process_image_fallback :
    ∀ (decode : List Nat → Option PILImage)
      (save : PILImage → Option (List Nat)) (data : List Nat),
      (decode data = none ∨ ∀ img, save img = none) →
      process_image decode save data = data := by
  intro decode save data h
  rcases h with h | h
  · simp [process_image, h]
  · unfold process_image
    cases hd : decode data with
    | none => rfl
    | some img => simp [h]

/-- Witness for C10 at a concrete undecodable input. -/
theorem C10_witness :
    process_image (fun _ => none) (fun _ => none) [7, 7] = [7, 7] :=
  C10_process_image_fallback (fun _ => none) (fun _ => none) [7, 7] (Or.inl rfl)

/-! ## C6 — malformed / unlocatable callbacks -/

/-- **C6 counterexample.**  A callback whose `client_context` is the JSON
string `"null"` — valid JSON, not an object, so squarely a malformed
context — is answered with HTTP 500 (the `.get` call at `main.py:807`
raises `AttributeError`, which escapes `except json.JSONDecodeError` to
the outer handler), not with a 4xx-class error as the claim states. -/
theorem C6_counterexample_nonobject_context_is_500 :
    altitude_webhook c6_parse (some c6_data) [] = (500, []) := by
  decide

/-- **C6 amended.**  A callback that is missing, lacks the
`client_context`/`decision` keys, carries a context string that fails JSON
parsing, or parses to an object without truthy `photo_id`/`author_did`, is
answered 4xx; a well-formed callback locating no log is answered 404.  But
a `client_context` holding a non-string value or valid non-object JSON is
answered HTTP 500.  In every case — these included — no event is created
or mutated: the store is returned unchanged for ALL inputs. -/
theorem C6_amended_rejection_statuses_and_no_mutation :
    ∀ (parseCtx : String → ContextParse) (data : Option AltitudeWebhookData)
      (db : List ModerationLog),
      ((webhookRequestMalformed parseCtx data ∨ webhookLocatesNoEvent parseCtx data db) →
        (400 ≤ (altitude_webhook parseCtx data db).1
          ∧ (altitude_webhook parseCtx data db).1 < 500
          ∧ (webhookLocatesNoEvent parseCtx data db →
              (altitude_webhook parseCtx data db).1 = 404)))
      ∧ (webhookContextCrashes parseCtx data →
          (altitude_webhook parseCtx data db).1 = 500)
      ∧ (altitude_webhook parseCtx data db).2 = db := by
  intro pc data db
  refine ⟨fun h => ⟨?_, ?_, ?_⟩, fun h => ?_, altitude_webhook_preserves_db pc data db⟩
  · rcases h with h | h
    · rw [altitude_webhook_of_malformed pc data db h]
    · rw [altitude_webhook_of_no_logs pc data db h]
      norm_num
  · rcases h with h | h
    · rw [altitude_webhook_of_malformed pc data db h]
      norm_num
    · rw [altitude_webhook_of_no_logs pc data db h]
      norm_num
  · intro h404
    rw [altitude_webhook_of_no_logs pc data db h404]
  · rw [altitude_webhook_of_crash pc data db h]

/-- Witness for the amended C6: a body-less callback (400 path), the
non-object context of the counterexample input (500 path), and the
store-preservation conjunct, each at concrete inputs. -/
theorem C6_amended_witness :
    (400 ≤ (altitude_webhook (fun _ => .malformed) none []).1
      ∧ (altitude_webhook (fun _ => .malformed) none []).1 < 500
      ∧ (webhookLocatesNoEvent (fun _ => .malformed) none [] →
          (altitude_webhook (fun _ => .malformed) none []).1 = 404))
    ∧ (altitude_webhook c6_parse (some c6_data) c2_db).1 = 500
    ∧ (altitude_webhook c6_parse (some c6_data) c2_db).2 = c2_db :=
  ⟨(C6_amended_rejection_statuses_and_no_mutation (fun _ => .malformed) none []).1
      (Or.inl (Or.inl rfl)),
   (C6_amended_rejection_statuses_and_no_mutation c6_parse (some c6_data) c2_db).2.1
      ⟨c6_data, "APPROVE", rfl, rfl, Or.inr ⟨"null", rfl, rfl⟩⟩,
   (C6_amended_rejection_statuses_and_no_mutation c6_parse (some c6_data) c2_db).2.2⟩

/-! ## Shared normal form of a successful `match_hash` run -/

/-- On the success path (image present, 200 JSON engine response, nonempty
image bytes, nonempty resolved ids) `match_hash` inserts exactly two
identical plain rows — whatever the escalation outcome — and answers
200/success with `task_created: False`. -/
theorem match_hash_success_eq (fa fp : Option String) (da dp : String)
    (img : List Nat) (r : MatchEngineResp) (alt : AltitudeOutcome)
    (db : List ModerationLog) (now : Nat)
    (hda : da ≠ "") (hdp : dp ≠ "") (himg : img ≠ [])
    (h200 : r.status_code = 200) (hjson : r.is_json = true) :
    match_hash true fa fp da dp img (some r) alt db now =
      { status := 200, success := true, matchesList := pdqMatchesOf r,
        altitude_task_created := some false,
        db := log_moderation_event (resolveFormField fp dp)
          (resolveFormField fa da) (!(pdqMatchesOf r).isEmpty) (some "pdq")
          ((pdqMatchesOf r).head?.bind fun m => m.distance) none (some r.raw)
          (now + 1)
          (log_moderation_event (resolveFormField fp dp)
            (resolveFormField fa da) (!(pdqMatchesOf r).isEmpty) (some "pdq")
            ((pdqMatchesOf r).head?.bind fun m => m.distance) none (some r.raw)
            now db) } := by
  have hp := resolveFormField_ne_empty fp dp hdp
  have ha := resolveFormField_ne_empty fa da hda
  have hie : img.isEmpty = false := by
    cases img with
    | nil => exact absurd rfl himg
    | cons x xs => rfl
  cases alt <;> simp [match_hash, h200, hjson, hp, ha, hie]

/-! ## C1 — duplicate review-decision deliveries -/

/-- **C1.**  Against the code, no review-decision delivery is ever applied:
a well-formed callback that locates the moderation log for its photo is
answered with HTTP 500 (reading `log.altitude_task_id` raises
`AttributeError`, and the subsequent `update_altitude_task(photo_id=...,
altitude_task_id=..., altitude_task_status=...)` call would raise
`TypeError` against the two-parameter signature in `db/session.py`), and
the store is left unchanged — so there is no "successful first
application" after which a duplicate could be acknowledged. -/
theorem C1_first_delivery_already_fails :
    altitude_webhook c1_parse (some c1_data) c1_db = (500, c1_db) := by
  decide

/-! ## C2 — correlation-key mismatch -/

/-- **C2.**  The callback payload read by `altitude_webhook`
(`client_context`, `decision`, `decision_time`) carries no task-identifier
field, and the handler performs no comparison against the stored
correlation key: a delivery against a store whose log carries
`altitude_task_id = "task-A"` is answered with HTTP 500 (the
`update_altitude_task` call raises `TypeError`), not with a
mismatch-specific rejection; the store is unchanged. -/
theorem C2_no_correlation_check_delivery_fails :
    altitude_webhook c2_parse (some c2_data) c2_db = (500, c2_db) := by
  decide

/-! ## C3 — one event per submission -/

/-- **C3.**  A single match submission (image present, 200 JSON engine
response, successful review-task creation) inserts TWO `moderation_logs`
rows, not one: `log_moderation_event` always inserts, so the "update the
log entry with Altitude task information" call at `main.py:387` (which in
addition raises `TypeError` and is re-done plainly at line 424) creates a
second row. -/
theorem C3_single_submission_inserts_two_rows :
    (match_hash true (some "d3") (some "p3") "xa" "xp" [1] (some c3_resp)
      (.created "task-3") [] 0).db.length = 2 := by
  decide

/-! ## C4 — best-match selection -/

/-- **C4 counterexample.**  With candidates `zbank` (distance 10, first in
payload order) and `abank` (distance 3, lexicographically first bank), the
recorded `match_score` of both inserted rows is 10 — the first candidate in
payload order — not the lowest distance 3: there is no lowest-distance
selection and no lexicographic tie-break. -/
theorem C4_counterexample_first_not_lowest :
    ((match_hash true (some "d4") (some "p4") "xa" "xp" [1] (some c4_resp)
        .failed [] 0).db.map fun l => l.match_score) = [some 10, some 10]
    ∧ (flattenPdqMatches c4_banks).map (fun m => m.distance) = [some 10, some 3] := by
  constructor <;> decide

/-- **C4 amended.**  The candidate recorded in `match_score` is the FIRST
candidate of the flattened engine payload (first bank in payload order,
first match within it); the response's `matches` list preserves payload
order unchanged. -/
theorem C4_amended_first_in_payload_order_recorded :
    ∀ (fa fp : Option String) (da dp : String) (img : List Nat)
      (r : MatchEngineResp) (banks : List (String × List EngineMatch))
      (m : FormattedMatch) (rest : List FormattedMatch)
      (alt : AltitudeOutcome) (db : List ModerationLog) (now : Nat),
      da ≠ "" → dp ≠ "" → img ≠ [] →
      r.status_code = 200 → r.is_json = true → r.pdq = some banks →
      flattenPdqMatches banks = m :: rest →
      (match_hash true fa fp da dp img (some r) alt db now).matchesList = m :: rest
      ∧ ((match_hash true fa fp da dp img (some r) alt db now).db.map
            fun l => l.match_score)
          = (db.map fun l => l.match_score) ++ [m.distance, m.distance] := by
  intro fa fp da dp img r banks m rest alt db now hda hdp himg h200 hjson hpdq hflat
  rw [match_hash_success_eq fa fp da dp img r alt db now hda hdp himg h200 hjson]
  constructor
  · simp [pdqMatchesOf, hpdq, hflat]
  · simp [log_moderation_event, pdqMatchesOf, hpdq, hflat]

/-- Witness for the amended C4 at the concrete two-bank payload. -/
theorem C4_amended_witness :
    (match_hash true none none "xa" "xp" [1] (some c4_resp) .failed [] 0).matchesList
      = [{ bank := "zbank", content_id := some "z1", distance := some 10, hash := "hz" },
         { bank := "abank", content_id := some "a1", distance := some 3, hash := "ha" }]
    ∧ ((match_hash true none none "xa" "xp" [1] (some c4_resp) .failed [] 0).db.map
          fun l => l.match_score)
        = [some 10, some 10] :=
  C4_amended_first_in_payload_order_recorded none none "xa" "xp" [1] c4_resp c4_banks
    { bank := "zbank", content_id := some "z1", distance := some 10, hash := "hz" }
    [{ bank := "abank", content_id := some "a1", distance := some 3, hash := "ha" }]
    .failed [] 0 (by decide) (by decide) (by decide) rfl rfl rfl (by decide)

/-! ## C7 — failed escalation -/

/-- **C7 counterexample.**  When review-task creation fails, the run is
200/success and two rows are persisted, but `action_taken` of every
persisted row is `None`: no audit note of the escalation failure is
recorded on the event. -/
theorem C7_counterexample_no_audit_note :
    (match_hash true (some "d7") (some "p7") "xa" "xp" [1] (some c7_resp)
        .failed [] 0).status = 200
    ∧ (match_hash true (some "d7") (some "p7") "xa" "xp" [1] (some c7_resp)
        .failed [] 0).success = true
    ∧ ((match_hash true (some "d7") (some "p7") "xa" "xp" [1] (some c7_resp)
        .failed [] 0).db.map fun l => l.action_taken) = [none, none] := by
  refine ⟨?_, ?_, ?_⟩ <;> decide

/-- **C7 amended.**  When escalation fails (task creation returns no task
or raises), the event is still persisted with its match outcome and no
altitude task id, and the caller receives a success-shaped 200 response
whose `altitude.task_created` field is `False` — but nothing is recorded in
`action_taken`, which stays `None`. -/
theorem C7_amended_failure_only_in_response :
    ∀ (fa fp : Option String) (da dp : String) (img : List Nat)
      (r : MatchEngineResp) (alt : AltitudeOutcome)
      (db : List ModerationLog) (now : Nat),
      da ≠ "" → dp ≠ "" → img ≠ [] →
      r.status_code = 200 → r.is_json = true →
      (alt = .failed ∨ ∃ msg, alt = .raised msg) →
      (match_hash true fa fp da dp img (some r) alt db now).status = 200
      ∧ (match_hash true fa fp da dp img (some r) alt db now).success = true
      ∧ (match_hash true fa fp da dp img (some r) alt db now).altitude_task_created
          = some false
      ∧ ((match_hash true fa fp da dp img (some r) alt db now).db.map
            fun l => l.altitude_task_id)
          = (db.map fun l => l.altitude_task_id) ++ [none, none]
      ∧ ((match_hash true fa fp da dp img (some r) alt db now).db.map
            fun l => l.action_taken)
          = (db.map fun l => l.action_taken) ++ [none, none]
      ∧ ((match_hash true fa fp da dp img (some r) alt db now).db.map
            fun l => l.match_result)
          = (db.map fun l => l.match_result)
            ++ [!(pdqMatchesOf r).isEmpty, !(pdqMatchesOf r).isEmpty] := by
  intro fa fp da dp img r alt db now hda hdp himg h200 hjson _halt
  rw [match_hash_success_eq fa fp da dp img r alt db now hda hdp himg h200 hjson]
  refine ⟨rfl, rfl, rfl, ?_, ?_, ?_⟩ <;> simp [log_moderation_event]

/-- Witness for the amended C7 with a concrete failed escalation. -/
theorem C7_amended_witness :
    (match_hash true (some "d7") (some "p7") "xa" "xp" [1] (some c7_resp)
        .failed [] 3).status = 200
    ∧ (match_hash true (some "d7") (some "p7") "xa" "xp" [1] (some c7_resp)
        .failed [] 3).success = true
    ∧ (match_hash true (some "d7") (some "p7") "xa" "xp" [1] (some c7_resp)
        .failed [] 3).altitude_task_created = some false
    ∧ ((match_hash true (some "d7") (some "p7") "xa" "xp" [1] (some c7_resp)
        .failed [] 3).db.map fun l => l.altitude_task_id) = [none, none]
    ∧ ((match_hash true (some "d7") (some "p7") "xa" "xp" [1] (some c7_resp)
        .failed [] 3).db.map fun l => l.action_taken) = [none, none]
    ∧ ((match_hash true (some "d7") (some "p7") "xa" "xp" [1] (some c7_resp)
        .failed [] 3).db.map fun l => l.match_result)
        = [!(pdqMatchesOf c7_resp).isEmpty, !(pdqMatchesOf c7_resp).isEmpty] :=
  C7_amended_failure_only_in_response (some "d7") (some "p7") "xa" "xp" [1]
    c7_resp .failed [] 3 (by decide) (by decide) (by decide) rfl rfl (Or.inl rfl)

/-! ## C8 — downstream failures and response statuses -/

/-- **C8 counterexample.**  A match submission whose engine call raises
(engine unreachable / timeout) is answered with HTTP 500 by the outer
exception handler of `match_hash` — a 5xx caused by the downstream
service. -/
theorem C8_counterexample_engine_down_is_500 :
    (match_hash true (some "d8") (some "p8") "xa" "xp" [1] none .failed [] 0).status
      = 500 := by
  decide

/-- **C8 amended.**  The hash endpoint always answers HTTP 200 with a
structured body, whatever the engine does; the match endpoint answers 200
with `success: False` and no insertion for an engine ERROR RESPONSE, but
answers HTTP 500 (still a structured JSON body, with no insertion) when
the engine call RAISES. -/
theorem C8_amended_statuses :
    (∀ resp, (hash_image resp).1 = 200)
    ∧ (∀ (fa fp : Option String) (da dp : String) (img : List Nat)
        (r : MatchEngineResp) (alt : AltitudeOutcome)
        (db : List ModerationLog) (now : Nat),
        ¬ (r.status_code = 200 ∧ r.is_json = true) →
        match_hash true fa fp da dp img (some r) alt db now =
          { status := 200, success := false, matchesList := [],
            altitude_task_created := none, db := db })
    ∧ (∀ (fa fp : Option String) (da dp : String) (img : List Nat)
        (alt : AltitudeOutcome) (db : List ModerationLog) (now : Nat),
        match_hash true fa fp da dp img none alt db now =
          { status := 500, success := false, matchesList := [],
            altitude_task_created := none, db := db }) := by
  refine ⟨?_, ?_, ?_⟩
  · intro resp
    cases resp with
    | none => rfl
    | some r =>
      by_cases h : r.status_code = 200 ∧ r.is_json = true
      · cases hp : r.pdq <;> simp [hash_image, h, hp]
      · simp [hash_image, h]
  · intro fa fp da dp img r alt db now h
    simp [match_hash, h]
  · intro fa fp da dp img alt db now
    rfl

/-- Witness for the amended C8: unreachable engine on both endpoints and a
503 engine error response on the match endpoint. -/
theorem C8_amended_witness :
    (hash_image none).1 = 200
    ∧ (match_hash true none none "xa" "xp" [1] (some c8_err_resp) .failed [] 0 =
        { status := 200, success := false, matchesList := [],
          altitude_task_created := none, db := [] })
    ∧ (match_hash true none none "xa" "xp" [1] none .failed [] 0 =
        { status := 500, success := false, matchesList := [],
          altitude_task_created := none, db := [] }) :=
  ⟨C8_amended_statuses.1 none,
   C8_amended_statuses.2.1 none none "xa" "xp" [1] c8_err_resp .failed [] 0
     (by decide),
   C8_amended_statuses.2.2 none none "xa" "xp" [1] .failed [] 0⟩

/-! ## C9 — immutability of the correlation key -/

/-- **C9.**  No operation ever durably writes a correlation key: even when
review-task creation SUCCEEDS, both rows persisted by the pipeline carry no
`altitude_task_id` (the recording call raises `TypeError`); and
`update_altitude_task` leaves the durable store unchanged (its assignment
targets an attribute that is not a mapped column). -/
theorem C9_correlation_key_never_persisted :
    (∀ (fa fp : Option String) (da dp : String) (img : List Nat)
        (r : MatchEngineResp) (tid : String)
        (db : List ModerationLog) (now : Nat),
        da ≠ "" → dp ≠ "" → img ≠ [] →
        r.status_code = 200 → r.is_json = true →
        ((match_hash true fa fp da dp img (some r) (.created tid) db now).db.map
            fun l => l.altitude_task_id)
          = (db.map fun l => l.altitude_task_id) ++ [none, none])
    ∧ ∀ (p t : String) (d : List ModerationLog),
        (update_altitude_task p t d).2 = d := by
  constructor
  · intro fa fp da dp img r tid db now hda hdp himg h200 hjson
    rw [match_hash_success_eq fa fp da dp img r (.created tid) db now hda hdp
      himg h200 hjson]
    simp [log_moderation_event]
  · intro p t d
    unfold update_altitude_task
    cases (get_moderation_logs_for_photo p d).head? <;> rfl

/-- Witness for C9: a successful escalation persists no task id, and a
direct `update_altitude_task` call changes nothing durable. -/
theorem C9_witness :
    ((match_hash true (some "d9") (some "p9") "xa" "xp" [1] (some c9_resp)
        (.created "task-9") [] 0).db.map fun l => l.altitude_task_id)
      = [none, none]
    ∧ (update_altitude_task "p9" "task-9" c9_db).2 = c9_db :=
  ⟨C9_correlation_key_never_persisted.1 (some "d9") (some "p9") "xa" "xp" [1]
      c9_resp "task-9" [] 0 (by decide) (by decide) (by decide) rfl rfl,
   C9_correlation_key_never_persisted.2 "p9" "task-9" c9_db⟩
